import Mathlib

/-! # Verification of the Twilio voice-bot session pipeline

Shallow embedding of src/main.py.  Bytes are modelled as Nat values below
256, byte strings as lists of such values, and the behaviour of the
external services (Groq HTTP call, Deepgram transcription and synthesis,
the websocket) as explicit outcome parameters, so every function of the
source becomes a total executable Lean function over those outcomes. -/

namespace TwilioTest

/-! ## Base64 codec

Models the calls to base64.b64encode and base64.b64decode in src/main.py
at lines 121, 164 and 191.  Encoding maps each 3-byte group to four
characters of the standard alphabet and pads the final short group with
the pad character.  Decoding accepts the standard alphabet with the two
padded tail forms and, like the Python decoder, does not require the
unused bits of a padded tail to be zero. -/

def encChar (n : Nat) : Char :=
  if n < 26 then Char.ofNat (65 + n)
  else if n < 52 then Char.ofNat (71 + n)
  else if n < 62 then Char.ofNat (n - 4)
  else if n = 62 then Char.ofNat 43
  else Char.ofNat 47

def decChar (c : Char) : Option Nat :=
  if 65 ≤ c.toNat ∧ c.toNat ≤ 90 then some (c.toNat - 65)
  else if 97 ≤ c.toNat ∧ c.toNat ≤ 122 then some (c.toNat - 71)
  else if 48 ≤ c.toNat ∧ c.toNat ≤ 57 then some (c.toNat + 4)
  else if c.toNat = 43 then some 62
  else if c.toNat = 47 then some 63
  else none

def b64encode : List Nat → List Char
  | [] => []
  | [a] => [encChar (a / 4), encChar (a % 4 * 16), '=', '=']
  | [a, b] => [encChar (a / 4), encChar (a % 4 * 16 + b / 16), encChar (b % 16 * 4), '=']
  | a :: b :: c :: rest =>
      encChar (a / 4) :: encChar (a % 4 * 16 + b / 16) ::
      encChar (b % 16 * 4 + c / 64) :: encChar (c % 64) :: b64encode rest

def b64decode : List Char → Option (List Nat)
  | [] => some []
  | w :: x :: y :: z :: rest =>
      match decChar w, decChar x with
      | some a, some b =>
        if y = '=' then
          if z = '=' then
            if rest = [] then some [a * 4 + b / 16] else none
          else none
        else
          match decChar y with
          | some c =>
            if z = '=' then
              if rest = [] then some [a * 4 + b / 16, b % 16 * 16 + c / 4] else none
            else
              match decChar z with
              | some d =>
                match b64decode rest with
                | some tail =>
                    some ((a * 4 + b / 16) :: (b % 16 * 16 + c / 4) :: (c % 4 * 64 + d) :: tail)
                | none => none
              | none => none
          | none => none
      | _, _ => none
  | _ => none

theorem decChar_encChar : ∀ n, n < 64 → decChar (encChar n) = some n := by decide

theorem encChar_ne_pad : ∀ n, n < 64 → ¬ (encChar n = '=') := by decide

theorem b64_roundtrip_aux :
    ∀ (n : Nat) (l : List Nat), l.length ≤ n → (∀ b ∈ l, b < 256) →
      b64decode (b64encode l) = some l := by
  intro n
  induction n with
  | zero =>
    intro l hl _
    cases l with
    | nil => rfl
    | cons a t => simp at hl
  | succ n ih =>
    intro l hl h
    match l with
    | [] => rfl
    | [a] =>
      have ha : a < 256 := h a (by simp)
      have e1 := decChar_encChar (a / 4) (by omega)
      have e2 := decChar_encChar (a % 4 * 16) (by omega)
      simp [b64encode, b64decode, e1, e2]
      omega
    | [a, b] =>
      have ha : a < 256 := h a (by simp)
      have hb : b < 256 := h b (by simp)
      have e1 := decChar_encChar (a / 4) (by omega)
      have e2 := decChar_encChar (a % 4 * 16 + b / 16) (by omega)
      have e3 := decChar_encChar (b % 16 * 4) (by omega)
      have ne3 : ¬ (encChar (b % 16 * 4) = '=') := encChar_ne_pad _ (by omega)
      simp [b64encode, b64decode, e1, e2, e3, ne3]
      omega
    | a :: b :: c :: rest =>
      have ha : a < 256 := h a (by simp)
      have hb : b < 256 := h b (by simp)
      have hc : c < 256 := h c (by simp)
      have hrest : ∀ x ∈ rest, x < 256 := by
        intro x hx
        exact h x (by simp [hx])
      have hlen : rest.length ≤ n := by
        simp only [List.length_cons] at hl
        omega
      have ihr := ih rest hlen hrest
      have e1 := decChar_encChar (a / 4) (by omega)
      have e2 := decChar_encChar (a % 4 * 16 + b / 16) (by omega)
      have e3 := decChar_encChar (b % 16 * 4 + c / 64) (by omega)
      have e4 := decChar_encChar (c % 64) (by omega)
      have ne3 : ¬ (encChar (b % 16 * 4 + c / 64) = '=') := encChar_ne_pad _ (by omega)
      have ne4 : ¬ (encChar (c % 64) = '=') := encChar_ne_pad _ (by omega)
      simp [b64encode, b64decode, e1, e2, e3, e4, ne3, ne4, ihr]
      omega

theorem b64_roundtrip (l : List Nat) (h : ∀ b ∈ l, b < 256) :
    b64decode (b64encode l) = some l :=
  b64_roundtrip_aux l.length l le_rfl h

/-! ## JSON values

Minimal model of the Python values produced by json.loads and consumed by
websocket.send_json in src/main.py: strings, numbers, booleans, null,
arrays and objects with string keys. -/

inductive Json where
  | str (s : String)
  | num (n : Int)
  | bool (b : Bool)
  | null
  | arr (elems : List Json)
  | obj (fields : List (String × Json))

/-! ## Reply generation

Embedding of generate_ai_reply (src/main.py lines 64 to 81).  The outcome
of the requests.post call to the upstream endpoint is an explicit
parameter: a response arrived and its body parses, carrying the reply
content; or a response arrived but reading the expected body fields
raises; or the call itself raised (timeout, connection failure).  The
Except result separates a normal return from a Python exception escaping
the function, which contains no try/except of its own. -/

inductive GroqOutcome where
  | response (status : Nat) (content : String)
  | badBody (status : Nat) (exc : String)
  | netError (exc : String)

def fallbackReply : String := "Sorry, I had trouble processing that."

def generate_ai_reply : GroqOutcome → Except String String
  | .response status content =>
      if ¬ (status = 200) then .ok fallbackReply else .ok content
  | .badBody status exc =>
      if ¬ (status = 200) then .ok fallbackReply else .error exc
  | .netError exc => .error exc

/-! ## Speech synthesis

The synthesis stream obtained for one reply is modelled by what it
yields: either a finite chunk list arrives intact, or the stream raises
after yielding some prefix of chunks. -/

inductive TtsOutcome where
  | chunks (cs : List (List Nat))
  | failAfter (cs : List (List Nat)) (exc : String)

/-- Embedding of synthesize_tts (src/main.py lines 83 to 94): every chunk
is appended to one growing buffer; the whole body is inside a try/except
that returns the empty byte string on any failure. -/
def synthesize_tts : TtsOutcome → List Nat
  | .chunks cs => cs.foldl (fun buffer chunk => buffer ++ chunk) []
  | .failAfter _ _ => []

/-! ## Outbound frames and the playback trace -/

/-- Embedding of the envelope built for websocket.send_json at lines 122
and 192 of src/main.py: a media event object whose payload field holds
the base64 encoding of the audio bytes. -/
def mediaFrame (audio : List Nat) : Json :=
  Json.obj [(("event"), Json.str ("media")),
            (("media"), Json.obj [(("payload"), Json.str (String.mk (b64encode audio)))])]

inductive PEv where
  | send (frame : Json)
  | sleepMs (ms : Nat)

/-- Trace of the chunk loop at lines 120 to 123 of src/main.py: each
chunk is encoded into a media frame, sent, and followed by the pacing
sleep of 0.02 seconds. -/
def playLoop : List (List Nat) → List PEv
  | [] => []
  | c :: rest => PEv.send (mediaFrame c) :: PEv.sleepMs 20 :: playLoop rest

/-- Leading-whitespace removal on a character list. -/
def dropWs : List Char → List Char
  | [] => []
  | c :: rest => if c.isWhitespace then dropWs rest else c :: rest

/-- Model of the Python str.strip() call at line 107: whitespace removed
from both ends. -/
def pyStrip (s : String) : String :=
  String.mk ((dropWs ((dropWs s.toList).reverse)).reverse)

/-- Number of maximal non-whitespace runs, the flag recording whether the
scan is inside a word. -/
def countWords : List Char → Bool → Nat
  | [], _ => 0
  | c :: rest, inWord =>
      if c.isWhitespace then countWords rest false
      else (if inWord then 0 else 1) + countWords rest true

/-- Word count of the reply, as len(ai_reply.split()) at line 126: split
on whitespace runs with empty pieces dropped. -/
def wordCount (s : String) : Nat := countWords s.toList false

structure TurnResult where
  generated : Option String
  trace : List PEv
  raised : Option String

/-- Embedding of the nested process_transcript coroutine (src/main.py
lines 106 to 130).  The transcript is stripped and an empty result
returns at once, before any upstream call.  The generate_ai_reply call
sits outside any try block, so an exception from it escapes the
coroutine (the raised field).  The synthesis stream is consumed inside a
try/except: on success every chunk is sent with pacing and the quiet
sleep of 0.05 seconds per word of the reply follows; a stream failure
ends the loop after the prefix already sent and is swallowed by the
except arm. -/
def process_transcript (transcript : String) (groq : GroqOutcome) (tts : TtsOutcome) :
    TurnResult :=
  if pyStrip transcript = "" then ⟨none, [], none⟩
  else
    match generate_ai_reply groq with
    | .error exc => ⟨none, [], some exc⟩
    | .ok ai_reply =>
        match tts with
        | .chunks cs =>
            ⟨some ai_reply, playLoop cs ++ [PEv.sleepMs (wordCount ai_reply * 50)], none⟩
        | .failAfter cs _ => ⟨some ai_reply, playLoop cs, none⟩

/-- Embedding of the module-level process_transcript (src/main.py lines
184 to 198): generate, synthesize the whole reply into one buffer, and
send a single envelope when the buffer is non-empty.  The entire body
sits in one try/except, so no exception escapes and a caught failure
ends the turn with nothing sent.  The value is the list of frames sent. -/
def process_transcriptV2 (text : String) (groq : GroqOutcome) (tts : TtsOutcome) :
    List Json :=
  match generate_ai_reply groq with
  | .error _ => []
  | .ok _ =>
      let audio := synthesize_tts tts
      if audio = [] then [] else [mediaFrame audio]

/-! ## Transcript callback

Embedding of on_transcript (src/main.py lines 133 to 144).  A transcript
event carries the list of alternatives (each one its text) and the
finality flag, absent when the result object lacks the attribute. -/

structure DgResult where
  alternatives : List String
  is_final : Option Bool

/-- Body of the try block: alternatives[0] raises IndexError on an empty
list; otherwise a reply task is created exactly when the text is truthy
(non-empty) and getattr for the finality flag, defaulting to False,
yields True.  The ok value is the transcript scheduled, if any. -/
def on_transcriptBody (r : DgResult) : Except String (Option String) :=
  match r.alternatives with
  | [] => .error ("IndexError")
  | alt :: _ =>
      .ok (if ¬ (alt = "") ∧ r.is_final.getD false = true then some alt else none)

/-- Embedding of on_transcript itself: the except arm catches any
exception from the body and only logs, so the handler is total and
schedules nothing when the body raised. -/
def on_transcript (r : DgResult) : Option String :=
  match on_transcriptBody r with
  | .ok a => a
  | .error _ => none

/-! ## The receive loop of audio_stream

Embedding of the websocket handler loop (src/main.py lines 156 to 178)
as a state machine over the events a session observes: websocket frames
and disconnects, transcript callbacks from the recognition engine, and
completions of reply tasks.  json.loads on a textual frame is an
explicit outcome (the external parser either returns a value or
raises). -/

inductive FrameAction where
  | ignore
  | stop
  | media (audio : List Nat)

/-- Handling of one textual frame by the loop body, lines 161 to 168.
No exception here has a handler in the loop: a json.loads failure,
attribute access on a non-object, a missing media or payload key, a
non-string payload, and a payload rejected by the base64 decoder all
propagate out of the loop.  An object whose event field is neither the
media tag nor the stop tag, or is missing or not a string, is dropped
without error. -/
def handleTextFrame (parsed : Except String Json) : Except String FrameAction :=
  match parsed with
  | .error exc => .error exc
  | .ok (Json.obj fields) =>
      match fields.lookup ("event") with
      | some (Json.str ev) =>
          if ev = "media" then
            match fields.lookup ("media") with
            | some (Json.obj media) =>
                match media.lookup ("payload") with
                | some (Json.str payload) =>
                    match b64decode payload.toList with
                    | some audio => .ok (FrameAction.media audio)
                    | none => .error ("binascii.Error")
                | some _ => .error ("TypeError")
                | none => .error ("KeyError")
            | some _ => .error ("TypeError")
            | none => .error ("KeyError")
          else if ev = "stop" then .ok FrameAction.stop
          else .ok FrameAction.ignore
      | _ => .ok FrameAction.ignore
  | .ok _ => .error ("AttributeError")

inductive ExitKind where
  | stopped
  | disconnected
  | crashed (exc : String)
deriving DecidableEq

inductive InEv where
  | wsText (parsed : Except String Json)
  | wsBinary (data : List Nat)
  | wsDisconnect
  | dgTranscript (r : DgResult)
  | taskDone

/-- Session state: audio forwarded to the recognition connection in
order, the number of reply tasks in flight, how the loop exited (none
while it still runs), and how many times finish was called on the
recognition connection. -/
structure SessState where
  dgAudio : List (List Nat)
  tasks : Nat
  closedWith : Option ExitKind
  dgFinish : Nat
deriving DecidableEq

def initState : SessState := ⟨[], 0, none, 0⟩

/-- One step of the session.  A stop frame breaks out of the loop and the
cleanup arm calls finish; an exception from the loop body reaches the
same cleanup arm and keeps propagating; a disconnect is caught and also
reaches it.  A transcript event runs on_transcript, whose create_task
call adds one in-flight reply task without consulting how many are
already running; a task completing removes one; nothing in the source
cancels a task.  After the loop has exited no further event is
processed. -/
def step (s : SessState) (ev : InEv) : SessState :=
  match s.closedWith with
  | some _ => s
  | none =>
      match ev with
      | .wsDisconnect => ⟨s.dgAudio, s.tasks, some ExitKind.disconnected, s.dgFinish + 1⟩
      | .wsBinary data => ⟨s.dgAudio ++ [data], s.tasks, none, s.dgFinish⟩
      | .taskDone => ⟨s.dgAudio, s.tasks - 1, none, s.dgFinish⟩
      | .dgTranscript r =>
          match on_transcript r with
          | some _ => ⟨s.dgAudio, s.tasks + 1, none, s.dgFinish⟩
          | none => s
      | .wsText parsed =>
          match handleTextFrame parsed with
          | .error exc => ⟨s.dgAudio, s.tasks, some (ExitKind.crashed exc), s.dgFinish + 1⟩
          | .ok FrameAction.stop => ⟨s.dgAudio, s.tasks, some ExitKind.stopped, s.dgFinish + 1⟩
          | .ok FrameAction.ignore => s
          | .ok (FrameAction.media audio) => ⟨s.dgAudio ++ [audio], s.tasks, none, s.dgFinish⟩

def runEvents (evs : List InEv) : SessState := evs.foldl step initState

/-! ## Helper lemmas -/

def sendsOf (tr : List PEv) : List Json :=
  tr.filterMap (fun e => match e with | PEv.send f => some f | PEv.sleepMs _ => none)

theorem sendsOf_append (a b : List PEv) : sendsOf (a ++ b) = sendsOf a ++ sendsOf b := by
  simp [sendsOf, List.filterMap_append]

theorem sendsOf_playLoop (cs : List (List Nat)) :
    sendsOf (playLoop cs) = cs.map mediaFrame := by
  induction cs with
  | nil => rfl
  | cons c rest ih =>
    simp only [playLoop, sendsOf, List.filterMap_cons, List.map_cons] at ih ⊢
    simp [ih]

def finishCount (s : SessState) : Prop :=
  s.dgFinish = (if s.closedWith = none then 0 else 1)

theorem step_finishCount (s : SessState) (ev : InEv) (h : finishCount s) :
    finishCount (step s ev) := by
  unfold finishCount at h ⊢
  cases hk : s.closedWith with
  | some k =>
    have hs : step s ev = s := by simp [step, hk]
    rw [hs, h, hk]
  | none =>
    rw [hk, if_pos rfl] at h
    cases ev with
    | wsDisconnect => simp [step, hk, h]
    | wsBinary data => simp [step, hk, h]
    | taskDone => simp [step, hk, h]
    | dgTranscript r =>
      cases hr : on_transcript r with
      | some t => simp [step, hk, hr, h]
      | none => simp [step, hk, hr, h]
    | wsText parsed =>
      cases hp : handleTextFrame parsed with
      | error exc => simp [step, hk, hp, h]
      | ok act =>
        cases act with
        | ignore => simp [step, hk, hp, h]
        | stop => simp [step, hk, hp, h]
        | media audio => simp [step, hk, hp, h]

theorem foldl_finishCount (evs : List InEv) (s : SessState) (h : finishCount s) :
    finishCount (evs.foldl step s) := by
  induction evs generalizing s with
  | nil => exact h
  | cons ev rest ih => exact ih (step s ev) (step_finishCount s ev h)

/-! ## Claims -/

/-- Claim C1 fails on the code: two final non-empty transcripts arriving
in succession leave two reply cycles in flight at once for the same
still-open session, because on_transcript starts a fresh task for each
final transcript with no queueing, dropping, or gating on the cycle
already active. -/
theorem claim_C1_counterexample :
    (runEvents [InEv.dgTranscript ⟨[("hi")], some true⟩,
                InEv.dgTranscript ⟨[("yo")], some true⟩]).tasks = 2 ∧
    (runEvents [InEv.dgTranscript ⟨[("hi")], some true⟩,
                InEv.dgTranscript ⟨[("yo")], some true⟩]).closedWith = none ∧
    ¬ ((2 : Nat) ≤ 1) := by decide

/-- Claim C1 amended: a final transcript that schedules a reply makes the
number of in-flight reply cycles one larger than at the instant it
arrives, whatever that number already is; cycles for the same session
run concurrently, with no serialization, queueing, or dropping. -/
theorem claim_C1_amended (s : SessState) (r : DgResult) (t : String)
    (hlive : s.closedWith = none) (hsched : on_transcript r = some t) :
    (step s (InEv.dgTranscript r)).tasks = s.tasks + 1 ∧
    (step s (InEv.dgTranscript r)).closedWith = none := by
  simp [step, hlive, hsched]

/-- Witness for claim C1 at a concrete live state and final transcript. -/
theorem claim_C1_witness :
    (step initState (InEv.dgTranscript ⟨[("hi")], some true⟩)).tasks = initState.tasks + 1 ∧
    (step initState (InEv.dgTranscript ⟨[("hi")], some true⟩)).closedWith = none :=
  claim_C1_amended initState ⟨[("hi")], some true⟩ ("hi") rfl rfl

/-- Claim C2 fails on the code: a timeout or network failure makes the
HTTP call raise, and generate_ai_reply has no try/except, so the
exception escapes instead of the fallback string being returned. -/
theorem claim_C2_counterexample :
    generate_ai_reply (GroqOutcome.netError ("ReadTimeout")) =
      Except.error ("ReadTimeout") ∧
    ¬ (generate_ai_reply (GroqOutcome.netError ("ReadTimeout")) =
        Except.ok fallbackReply) := by
  refine ⟨rfl, ?_⟩
  simp [generate_ai_reply]

/-- Claim C2 amended: when an HTTP response arrives with a status other
than 200 (hence for every non-2xx status), generate_ai_reply returns
exactly the fixed apology string, and the content of a 200 response is
returned as the reply; but when the call raises (timeout, network
failure) the exception propagates out of the function, as it does for a
200 response whose body lacks the expected fields. -/
theorem claim_C2_amended (status : Nat) (content exc : String) (hs : ¬ (status = 200)) :
    generate_ai_reply (GroqOutcome.response status content) = Except.ok fallbackReply ∧
    generate_ai_reply (GroqOutcome.response 200 content) = Except.ok content ∧
    generate_ai_reply (GroqOutcome.netError exc) = Except.error exc ∧
    generate_ai_reply (GroqOutcome.badBody 200 exc) = Except.error exc := by
  refine ⟨?_, rfl, rfl, rfl⟩
  simp [generate_ai_reply, hs]

/-- Witness for claim C2 at a concrete failing status. -/
theorem claim_C2_witness :
    generate_ai_reply (GroqOutcome.response 500 ("boom")) = Except.ok fallbackReply :=
  (claim_C2_amended 500 ("boom") ("x") (by decide)).1

/-- Claim C3 fails on the code: json.loads raising on a malformed textual
frame is caught nowhere in the loop body, so the receive loop terminates
with that error, the cleanup arm releases the recognition connection,
and a well-formed binary frame arriving next is never forwarded. -/
theorem claim_C3_counterexample :
    runEvents [InEv.wsText (Except.error ("JSONDecodeError")), InEv.wsBinary [0]] =
      ⟨[], 0, some (ExitKind.crashed ("JSONDecodeError")), 1⟩ ∧
    ¬ ((runEvents [InEv.wsText (Except.error ("JSONDecodeError")),
                   InEv.wsBinary [0]]).closedWith = none) := by decide

/-- Claim C3 amended: a textual frame whose content is not valid JSON
makes the decoding exception escape the live receive loop: the session
closes with that error after the cleanup arm releases the recognition
connection, and once closed no later frame of any kind is processed. -/
theorem claim_C3_amended (s : SessState) (exc : String) (hlive : s.closedWith = none) :
    step s (InEv.wsText (Except.error exc)) =
      ⟨s.dgAudio, s.tasks, some (ExitKind.crashed exc), s.dgFinish + 1⟩ ∧
    ∀ s2 ev, ¬ (s2.closedWith = none) → step s2 ev = s2 := by
  constructor
  · simp [step, hlive, handleTextFrame]
  · intro s2 ev h2
    cases hk : s2.closedWith with
    | none => exact absurd hk h2
    | some k => simp [step, hk]

/-- Witness for claim C3 at the initial state and a concrete parse
error. -/
theorem claim_C3_witness :
    step initState (InEv.wsText (Except.error ("bad"))) =
      ⟨[], 0, some (ExitKind.crashed ("bad")), 1⟩ :=
  (claim_C3_amended initState ("bad") rfl).1

/-- Claim C4 fails on the code: a stop frame ends the loop and the
cleanup arm releases the recognition connection, but the reply task
started for an earlier final transcript is never cancelled and is still
in flight when the session closes. -/
theorem claim_C4_counterexample :
    runEvents [InEv.dgTranscript ⟨[("hi")], some true⟩,
               InEv.wsText (Except.ok (Json.obj [(("event"), Json.str ("stop"))]))] =
      ⟨[], 1, some ExitKind.stopped, 1⟩ ∧
    ¬ ((1 : Nat) = 0) := by decide

/-- Claim C4 amended: whenever the session has closed (stop frame,
disconnect, or an error escaping the loop body) the recognition
connection has been released exactly once, and it is never released
while the loop still runs; but receiving a stop frame cancels nothing:
every reply task in flight at that moment stays in flight as the
session closes. -/
theorem claim_C4_amended (evs : List InEv) (s : SessState) (hlive : s.closedWith = none) :
    (¬ ((runEvents evs).closedWith = none) → (runEvents evs).dgFinish = 1) ∧
    ((runEvents evs).closedWith = none → (runEvents evs).dgFinish = 0) ∧
    step s (InEv.wsText (Except.ok (Json.obj [(("event"), Json.str ("stop"))]))) =
      ⟨s.dgAudio, s.tasks, some ExitKind.stopped, s.dgFinish + 1⟩ := by
  have hf : finishCount (runEvents evs) := foldl_finishCount evs initState rfl
  unfold finishCount at hf
  have hstop : handleTextFrame (Except.ok (Json.obj [(("event"), Json.str ("stop"))])) =
      Except.ok FrameAction.stop := rfl
  refine ⟨?_, ?_, ?_⟩
  · intro hc
    rw [hf, if_neg hc]
  · intro hc
    rw [hf, if_pos hc]
  · simp [step, hlive, hstop]

/-- Witness for claim C4 on the counterexample trace and a live state. -/
theorem claim_C4_witness :
    (¬ ((runEvents [InEv.wsDisconnect]).closedWith = none) →
      (runEvents [InEv.wsDisconnect]).dgFinish = 1) ∧
    ((runEvents [InEv.wsDisconnect]).closedWith = none →
      (runEvents [InEv.wsDisconnect]).dgFinish = 0) ∧
    step initState (InEv.wsText (Except.ok (Json.obj [(("event"), Json.str ("stop"))]))) =
      ⟨[], 0, some ExitKind.stopped, 1⟩ :=
  claim_C4_amended [InEv.wsDisconnect] initState rfl

/-- Claim C5: the reply generator runs only for a final transcript whose
text is non-empty after trimming.  An interim event schedules nothing; a
final event with empty text schedules nothing; a scheduled text always
came from a final event with truthy text; and a whitespace-only
scheduled text returns before generation with an empty trace, whatever
the upstream outcomes would have been. -/
theorem claim_C5 (r : DgResult) (groq : GroqOutcome) (tts : TtsOutcome) (t : String) :
    (¬ (r.is_final.getD false = true) → on_transcript r = none) ∧
    (∀ rest, r.alternatives = ("") :: rest → on_transcript r = none) ∧
    (on_transcript r = some t → ¬ (t = "") ∧ r.is_final.getD false = true) ∧
    (pyStrip t = "" → process_transcript t groq tts = ⟨none, [], none⟩) := by
  refine ⟨?_, ?_, ?_, ?_⟩
  · intro hnf
    cases halts : r.alternatives with
    | nil => simp [on_transcript, on_transcriptBody, halts]
    | cons alt rest => simp [on_transcript, on_transcriptBody, halts, hnf]
  · intro rest hr
    simp [on_transcript, on_transcriptBody, hr]
  · intro hs
    cases halts : r.alternatives with
    | nil => simp [on_transcript, on_transcriptBody, halts] at hs
    | cons alt rest =>
      simp only [on_transcript, on_transcriptBody, halts] at hs
      by_cases hc : ¬ (alt = "") ∧ r.is_final.getD false = true
      · rw [if_pos hc] at hs
        cases hs
        exact hc
      · rw [if_neg hc] at hs
        exact absurd hs (by simp)
  · intro ht
    simp [process_transcript, ht]

/-- Witness for claim C5: an interim event, a final empty-text event, and
a whitespace-only scheduled text, each at concrete inputs. -/
theorem claim_C5_witness :
    on_transcript ⟨[("hello")], some false⟩ = none ∧
    on_transcript ⟨[("")], some true⟩ = none ∧
    process_transcript ("  ") (GroqOutcome.netError ("t")) (TtsOutcome.chunks [[1]]) =
      ⟨none, [], none⟩ := by
  refine ⟨?_, ?_, ?_⟩
  · exact (claim_C5 ⟨[("hello")], some false⟩ (GroqOutcome.netError ("t"))
      (TtsOutcome.chunks [[1]]) ("x")).1 (by decide)
  · exact (claim_C5 ⟨[("")], some true⟩ (GroqOutcome.netError ("t"))
      (TtsOutcome.chunks [[1]]) ("x")).2.1 [] rfl
  · exact (claim_C5 ⟨[("")], some true⟩ (GroqOutcome.netError ("t"))
      (TtsOutcome.chunks [[1]]) ("  ")).2.2.2 (by decide)

/-- Claim C6 fails on the code: the four-character payload of letters a,
b and two pads is accepted by the decoder, but re-encoding the decoded
byte yields a different, canonical payload, because the decoder — like
the Python one — does not require the unused padding bits to be zero. -/
theorem claim_C6_counterexample :
    b64decode (("ab==").toList) = some [105] ∧
    b64encode [105] = ("aQ==").toList ∧
    ¬ (b64encode [105] = ("ab==").toList) := by decide

/-- Claim C6 amended: the round trip holds for every payload that is a
canonical encoder output: decoding succeeds and re-encoding the decoded
bytes returns that payload unchanged; a non-canonical payload the
decoder also accepts can re-encode to a different string. -/
theorem claim_C6_amended (audio : List Nat) (h : ∀ b ∈ audio, b < 256) :
    ∃ d, b64decode (b64encode audio) = some d ∧ b64encode d = b64encode audio :=
  ⟨audio, b64_roundtrip audio h, rfl⟩

/-- Witness for claim C6 at a concrete byte string. -/
theorem claim_C6_witness :
    ∃ d, b64decode (b64encode [0, 1, 255]) = some d ∧
      b64encode d = b64encode [0, 1, 255] :=
  claim_C6_amended [0, 1, 255] (by decide)

/-- Claim C7: on a successful turn the playback trace is the chunk list
in synthesis order, each chunk sent and followed by the fixed 20
millisecond pacing sleep, and after the last chunk the quiet period of
50 milliseconds per word of the reply is the final event before the turn
ends. -/
theorem claim_C7 (t ai_reply : String) (groq : GroqOutcome) (cs : List (List Nat))
    (ht : ¬ (pyStrip t = "")) (hg : generate_ai_reply groq = Except.ok ai_reply) :
    (process_transcript t groq (TtsOutcome.chunks cs)).trace
      = playLoop cs ++ [PEv.sleepMs (wordCount ai_reply * 50)] ∧
    sendsOf (process_transcript t groq (TtsOutcome.chunks cs)).trace = cs.map mediaFrame ∧
    (process_transcript t groq (TtsOutcome.chunks cs)).trace.getLast?
      = some (PEv.sleepMs (wordCount ai_reply * 50)) := by
  have htr : (process_transcript t groq (TtsOutcome.chunks cs)).trace
      = playLoop cs ++ [PEv.sleepMs (wordCount ai_reply * 50)] := by
    simp [process_transcript, ht, hg]
  refine ⟨htr, ?_, ?_⟩
  · rw [htr, sendsOf_append, sendsOf_playLoop]
    simp [sendsOf]
  · rw [htr]
    simp

/-- Witness for claim C7 at a concrete transcript, reply and chunk
list. -/
theorem claim_C7_witness :
    (process_transcript ("hi") (GroqOutcome.response 200 ("ok there"))
        (TtsOutcome.chunks [[1], [2]])).trace
      = playLoop [[1], [2]] ++ [PEv.sleepMs (wordCount ("ok there") * 50)] ∧
    sendsOf (process_transcript ("hi") (GroqOutcome.response 200 ("ok there"))
        (TtsOutcome.chunks [[1], [2]])).trace = [[1], [2]].map mediaFrame ∧
    (process_transcript ("hi") (GroqOutcome.response 200 ("ok there"))
        (TtsOutcome.chunks [[1], [2]])).trace.getLast?
      = some (PEv.sleepMs (wordCount ("ok there") * 50)) :=
  claim_C7 ("hi") ("ok there") (GroqOutcome.response 200 ("ok there")) [[1], [2]]
    (by decide) rfl

/-- Claim C8: a failing synthesis stream leaves synthesize_tts returning
the empty buffer rather than raising, the turn around it then sends no
frame and returns normally; likewise in the streaming variant a
synthesis call that fails before the first chunk plays nothing, the
error is swallowed, and the coroutine returns so the session keeps
listening. -/
theorem claim_C8 (cs : List (List Nat)) (exc text t ai_reply : String)
    (groq : GroqOutcome) (ht : ¬ (pyStrip t = ""))
    (hg : generate_ai_reply groq = Except.ok ai_reply) :
    synthesize_tts (TtsOutcome.failAfter cs exc) = [] ∧
    process_transcriptV2 text groq (TtsOutcome.failAfter cs exc) = [] ∧
    (process_transcript t groq (TtsOutcome.failAfter [] exc)).trace = [] ∧
    (process_transcript t groq (TtsOutcome.failAfter [] exc)).raised = none := by
  refine ⟨rfl, ?_, ?_, ?_⟩
  · simp [process_transcriptV2, hg, synthesize_tts]
  · simp [process_transcript, ht, hg, playLoop]
  · simp [process_transcript, ht, hg]

/-- Witness for claim C8 at a concrete reply and synthesis failure. -/
theorem claim_C8_witness :
    synthesize_tts (TtsOutcome.failAfter [[9]] ("boom")) = [] ∧
    process_transcriptV2 ("hi") (GroqOutcome.response 200 ("ok"))
      (TtsOutcome.failAfter [[9]] ("boom")) = [] ∧
    (process_transcript ("hi") (GroqOutcome.response 200 ("ok"))
      (TtsOutcome.failAfter [] ("boom"))).trace = [] ∧
    (process_transcript ("hi") (GroqOutcome.response 200 ("ok"))
      (TtsOutcome.failAfter [] ("boom"))).raised = none :=
  claim_C8 [[9]] ("boom") ("hi") ("hi") ("ok") (GroqOutcome.response 200 ("ok"))
    (by decide) rfl

/-- Claim C9: every outbound frame is exactly the media envelope whose
single payload field carries the base64 encoding of the chunk, and
decoding that payload recovers the chunk bytes byte for byte. -/
theorem claim_C9 (audio : List Nat) (h : ∀ b ∈ audio, b < 256) :
    mediaFrame audio =
      Json.obj [(("event"), Json.str ("media")),
                (("media"), Json.obj [(("payload"),
                  Json.str (String.mk (b64encode audio)))])] ∧
    b64decode (String.mk (b64encode audio)).toList = some audio := by
  refine ⟨rfl, ?_⟩
  have hl : (String.mk (b64encode audio)).toList = b64encode audio := rfl
  rw [hl, b64_roundtrip audio h]

/-- Witness for claim C9 at a concrete chunk. -/
theorem claim_C9_witness :
    mediaFrame [7, 200] =
      Json.obj [(("event"), Json.str ("media")),
                (("media"), Json.obj [(("payload"),
                  Json.str (String.mk (b64encode [7, 200])))])] ∧
    b64decode (String.mk (b64encode [7, 200])).toList = some [7, 200] :=
  claim_C9 [7, 200] (by decide)

/-- Claim C10: the transcript handler is total over malformed results:
whenever the body raises the except arm swallows it and nothing is
scheduled, an event with an empty alternatives list schedules nothing,
and an event lacking the finality attribute schedules nothing. -/
theorem claim_C10 (r : DgResult) :
    (∀ exc, on_transcriptBody r = Except.error exc → on_transcript r = none) ∧
    (r.alternatives = [] → on_transcript r = none) ∧
    (r.is_final = none → on_transcript r = none) := by
  refine ⟨?_, ?_, ?_⟩
  · intro exc h
    simp [on_transcript, h]
  · intro h
    simp [on_transcript, on_transcriptBody, h]
  · intro h
    cases halts : r.alternatives with
    | nil => simp [on_transcript, on_transcriptBody, halts]
    | cons alt rest => simp [on_transcript, on_transcriptBody, halts, h]

/-- Witness for claim C10 at an empty alternatives list and a missing
finality flag. -/
theorem claim_C10_witness :
    on_transcript ⟨[], some true⟩ = none ∧ on_transcript ⟨[("hi")], none⟩ = none :=
  ⟨(claim_C10 ⟨[], some true⟩).2.1 rfl, (claim_C10 ⟨[("hi")], none⟩).2.2 rfl⟩

end TwilioTest
